import Mathlib

/-!
# Verification of the panoptica evaluator pipeline

Shallow embedding of `src/panoptica/evaluator.py` (the orchestrator
`panoptic_evaluate`, the wrapper class `Panoptic_Evaluator`, and the
zero-instance edge-case handler `_handle_zero_instances_cases`), together
with the processing-pair data model that the evaluator dispatches on.

The data-carrier types (`SemanticPair`, `UnmatchedInstancePair`,
`MatchedInstancePair`, `PanopticaResult`) and the collaborator
`evaluate_matched_instance` live in repository modules that are not part of
the visible source tree (`utils/datatypes.py`, `result.py`,
`instance_evaluator.py`); they are modelled from the spec (§3, §4.3), which
describes them as value-like snapshots: masks are flattened integer arrays
(0 = background), the instance counts `n_reference_instance` /
`n_prediction_instance` are the number of distinct non-zero labels in the
corresponding mask, and `copy` is a deep copy — in a pure value model, a
structural rebuild.  Python exceptions (`assert` failures and the final
`RuntimeError`) are modelled as an `Except` error type.
-/

set_option autoImplicit false

namespace Panoptica

/-- Count of distinct non-zero labels in a flattened mask (the derived
`n_reference_instance` / `n_prediction_instance` attributes of instanced
pairs). -/
def n_distinct_nonzero (mask : List Nat) : Nat :=
  ((mask.filter (fun v => v != 0)).dedup).length

/-- Modelled from the spec (§3, `utils/datatypes.py` is not in the visible
source): a reference mask and a prediction mask of semantic class labels,
0 = background. -/
structure SemanticPair where
  ref_mask : List Nat
  pred_mask : List Nat
deriving DecidableEq

/-- Modelled from the spec (§3): reference and prediction masks where each
connected foreground region carries a unique positive instance id. -/
structure UnmatchedInstancePair where
  ref_mask : List Nat
  pred_mask : List Nat
deriving DecidableEq

/-- Derived attribute: count of distinct non-zero ids in the reference mask. -/
def UnmatchedInstancePair.n_reference_instance (p : UnmatchedInstancePair) : Nat :=
  n_distinct_nonzero p.ref_mask

/-- Derived attribute: count of distinct non-zero ids in the prediction mask. -/
def UnmatchedInstancePair.n_prediction_instance (p : UnmatchedInstancePair) : Nat :=
  n_distinct_nonzero p.pred_mask

/-- Deep copy; for immutable value-model masks this is a structural rebuild. -/
def UnmatchedInstancePair.copy (p : UnmatchedInstancePair) : UnmatchedInstancePair :=
  ⟨p.ref_mask, p.pred_mask⟩

/-- Modelled from the spec (§3): an unmatched pair extended with a matching
result — the ordered list of accepted (reference id, prediction id) pairs and
the unmatched ids on each side. -/
structure MatchedInstancePair where
  ref_mask : List Nat
  pred_mask : List Nat
  matched_instances : List (Nat × Nat)
  missed_reference_labels : List Nat
  missed_prediction_labels : List Nat
deriving DecidableEq

/-- Derived attribute: count of distinct non-zero ids in the reference mask. -/
def MatchedInstancePair.n_reference_instance (p : MatchedInstancePair) : Nat :=
  n_distinct_nonzero p.ref_mask

/-- Derived attribute: count of distinct non-zero ids in the prediction mask. -/
def MatchedInstancePair.n_prediction_instance (p : MatchedInstancePair) : Nat :=
  n_distinct_nonzero p.pred_mask

/-- Deep copy; for immutable value-model masks this is a structural rebuild. -/
def MatchedInstancePair.copy (p : MatchedInstancePair) : MatchedInstancePair :=
  ⟨p.ref_mask, p.pred_mask, p.matched_instances, p.missed_reference_labels,
    p.missed_prediction_labels⟩

/-- Modelled from the spec (§3, `result.py` is not in the visible source):
the terminal result value with instance counts, true positives and the
per-matched-pair metric lists. -/
structure PanopticaResult where
  num_ref_instances : Nat
  num_pred_instances : Nat
  tp : Nat
  dice_list : List ℚ
  iou_list : List ℚ
deriving DecidableEq

/-- The `_ProcessingPair` union the orchestrator dispatches on: the runtime
type of the value determines which pipeline phases remain. -/
inductive ProcessingPair where
  | semantic : SemanticPair → ProcessingPair
  | unmatched : UnmatchedInstancePair → ProcessingPair
  | matched : MatchedInstancePair → ProcessingPair
  | result : PanopticaResult → ProcessingPair
deriving DecidableEq

/-- Runtime-type tag of a processing pair (the value Python's `type(...)`
comparison inspects). -/
inductive StageTag where
  | semanticPair
  | unmatchedInstancePair
  | matchedInstancePair
  | panopticaResult
deriving DecidableEq

/-- The runtime type of a processing-pair value. -/
def ProcessingPair.typeTag : ProcessingPair → StageTag
  | .semantic _ => .semanticPair
  | .unmatched _ => .unmatchedInstancePair
  | .matched _ => .matchedInstancePair
  | .result _ => .panopticaResult

/-- The `UnmatchedInstancePair | MatchedInstancePair` union accepted by
`_handle_zero_instances_cases`. -/
inductive InstancedPair where
  | unmatched : UnmatchedInstancePair → InstancedPair
  | matched : MatchedInstancePair → InstancedPair
deriving DecidableEq

/-- The `n_reference_instance` attribute, read polymorphically. -/
def InstancedPair.n_reference_instance : InstancedPair → Nat
  | .unmatched p => p.n_reference_instance
  | .matched p => p.n_reference_instance

/-- The `n_prediction_instance` attribute, read polymorphically. -/
def InstancedPair.n_prediction_instance : InstancedPair → Nat
  | .unmatched p => p.n_prediction_instance
  | .matched p => p.n_prediction_instance

/-- Inject an instanced pair back into the processing-pair union. -/
def InstancedPair.toProcessingPair : InstancedPair → ProcessingPair
  | .unmatched p => .unmatched p
  | .matched p => .matched p

/-- Failure conditions of the evaluate call: the two `assert` statements
guarding missing collaborators (spec taxonomy: MissingCollaborator), the
expected-input `assert` of `Panoptic_Evaluator.evaluate` (TypeMismatch), and
the final `RuntimeError` (PipelineExhausted). -/
inductive EvalError where
  | missingApproximator
  | missingMatcher
  | typeMismatch
  | pipelineExhausted
deriving DecidableEq

/-- Size of the region carrying a given id in a mask. -/
def region_size (mask : List Nat) (id : Nat) : Nat :=
  (mask.filter (fun v => v == id)).length

/-- Number of positions where the reference mask carries id `r` and the
prediction mask carries id `p`. -/
def intersection_size (rm pm : List Nat) (r p : Nat) : Nat :=
  ((rm.zip pm).filter (fun q => q.1 == r && q.2 == p)).length

/-- IoU of a matched (reference id, prediction id) pair: intersection over
union, with union = |A| + |B| - |A ∩ B|. -/
def pair_iou (rm pm : List Nat) (r p : Nat) : ℚ :=
  (intersection_size rm pm r p : ℚ) /
    ((region_size rm r : ℚ) + (region_size pm p : ℚ) - (intersection_size rm pm r p : ℚ))

/-- Dice coefficient of a matched pair: 2·intersection over the sum of the
two region sizes. -/
def pair_dice (rm pm : List Nat) (r p : Nat) : ℚ :=
  (2 * (intersection_size rm pm r p : ℚ)) /
    ((region_size rm r : ℚ) + (region_size pm p : ℚ))

/-- Modelled from the spec (§4.3, `instance_evaluator.py` is not in the
visible source): for every accepted pair compute Dice and IoU in matching
order; `tp` is the number of accepted pairs; the instance counts pass
through unchanged.  The threshold is accepted but does not re-filter. -/
def evaluate_matched_instance (mp : MatchedInstancePair) (iou_threshold : ℚ) : PanopticaResult :=
  ⟨mp.n_reference_instance,
    mp.n_prediction_instance,
    mp.matched_instances.length,
    mp.matched_instances.map (fun q => pair_dice mp.ref_mask mp.pred_mask q.1 q.2),
    mp.matched_instances.map (fun q => pair_iou mp.ref_mask mp.pred_mask q.1 q.2)⟩

/-- Embedding of `_handle_zero_instances_cases` (evaluator.py lines 77-120),
including the `or` condition of its first branch exactly as written in the
source; the two later branches are kept even though that `or` makes them
unreachable. -/
def _handle_zero_instances_cases (processing_pair : InstancedPair) : ProcessingPair :=
  let n_reference_instance := processing_pair.n_reference_instance
  let n_prediction_instance := processing_pair.n_prediction_instance
  if n_prediction_instance = 0 ∨ n_reference_instance = 0 then
    ProcessingPair.result ⟨0, 0, 0, [], []⟩
  else if n_reference_instance = 0 then
    ProcessingPair.result ⟨0, n_prediction_instance, 0, [], []⟩
  else if n_prediction_instance = 0 then
    ProcessingPair.result ⟨n_reference_instance, 0, 0, [], []⟩
  else
    processing_pair.toProcessingPair

/-- Embedding of the free function `panoptic_evaluate` (evaluator.py lines
37-74): phase 1 approximates instances of a semantic pair (asserting an
approximator is present), phase 2 zero-checks and matches an unmatched pair
(asserting a matcher is present), phase 3 zero-checks and evaluates a matched
pair; debug entries are recorded after the approximation and matching calls;
falling through every phase raises the final `RuntimeError`. -/
def panoptic_evaluate (processing_pair : ProcessingPair)
    (instance_approximator : Option (SemanticPair → UnmatchedInstancePair))
    (instance_matcher : Option (UnmatchedInstancePair → MatchedInstancePair))
    (iou_threshold : ℚ) :
    Except EvalError (PanopticaResult × List (String × ProcessingPair)) :=
  let debug_data : List (String × ProcessingPair) := []
  match processing_pair with
  | .result r => .ok (r, debug_data)
  | processing_pair =>
    -- First Phase: Instance Approximation
    let phase1 : Except EvalError (ProcessingPair × List (String × ProcessingPair)) :=
      match processing_pair with
      | .semantic sp =>
        match instance_approximator with
        | none => .error .missingApproximator
        | some approximate_instances =>
          let next := approximate_instances sp
          .ok (.unmatched next,
            debug_data ++ [("UnmatchedInstanceMap", ProcessingPair.unmatched next.copy)])
      | pp => .ok (pp, debug_data)
    match phase1 with
    | .error e => .error e
    | .ok (processing_pair, debug_data) =>
      -- Second Phase: Instance Matching
      let processing_pair :=
        match processing_pair with
        | .unmatched up => _handle_zero_instances_cases (.unmatched up)
        | pp => pp
      let phase2 : Except EvalError (ProcessingPair × List (String × ProcessingPair)) :=
        match processing_pair with
        | .unmatched up =>
          match instance_matcher with
          | none => .error .missingMatcher
          | some match_instances =>
            let next := match_instances up
            .ok (.matched next,
              debug_data ++ [("MatchedInstanceMap", ProcessingPair.matched next.copy)])
        | pp => .ok (pp, debug_data)
      match phase2 with
      | .error e => .error e
      | .ok (processing_pair, debug_data) =>
        -- Third Phase: Instance Evaluation
        let processing_pair :=
          match processing_pair with
          | .matched mp => _handle_zero_instances_cases (.matched mp)
          | pp => pp
        let processing_pair :=
          match processing_pair with
          | .matched mp => ProcessingPair.result (evaluate_matched_instance mp iou_threshold)
          | pp => pp
        match processing_pair with
        | .result r => .ok (r, debug_data)
        | _ => .error .pipelineExhausted

/-- Arguments on which the three collaborator operations are invoked during
one run of the pipeline; used to state that the matcher and the evaluator are
never handed a zero-instance pair. -/
structure CallTrace where
  approximate_calls : List SemanticPair
  match_calls : List UnmatchedInstancePair
  evaluate_calls : List MatchedInstancePair
deriving DecidableEq

/-- Instrumented variant of `panoptic_evaluate`: same control flow, but it
also records the argument of every invocation of `approximate_instances`,
`match_instances` and `evaluate_matched_instance`. -/
def panoptic_evaluate_traced (processing_pair : ProcessingPair)
    (instance_approximator : Option (SemanticPair → UnmatchedInstancePair))
    (instance_matcher : Option (UnmatchedInstancePair → MatchedInstancePair))
    (iou_threshold : ℚ) :
    Except EvalError (PanopticaResult × List (String × ProcessingPair)) × CallTrace :=
  let debug_data : List (String × ProcessingPair) := []
  match processing_pair with
  | .result r => (.ok (r, debug_data), ⟨[], [], []⟩)
  | processing_pair =>
    -- First Phase: Instance Approximation
    let phase1 : Except EvalError (ProcessingPair × List (String × ProcessingPair)) ×
        List SemanticPair :=
      match processing_pair with
      | .semantic sp =>
        match instance_approximator with
        | none => (.error .missingApproximator, [])
        | some approximate_instances =>
          let next := approximate_instances sp
          (.ok (.unmatched next,
            debug_data ++ [("UnmatchedInstanceMap", ProcessingPair.unmatched next.copy)]), [sp])
      | pp => (.ok (pp, debug_data), [])
    match phase1 with
    | (.error e, acalls) => (.error e, ⟨acalls, [], []⟩)
    | (.ok (processing_pair, debug_data), acalls) =>
      -- Second Phase: Instance Matching
      let processing_pair :=
        match processing_pair with
        | .unmatched up => _handle_zero_instances_cases (.unmatched up)
        | pp => pp
      let phase2 : Except EvalError (ProcessingPair × List (String × ProcessingPair)) ×
          List UnmatchedInstancePair :=
        match processing_pair with
        | .unmatched up =>
          match instance_matcher with
          | none => (.error .missingMatcher, [])
          | some match_instances =>
            let next := match_instances up
            (.ok (.matched next,
              debug_data ++ [("MatchedInstanceMap", ProcessingPair.matched next.copy)]), [up])
        | pp => (.ok (pp, debug_data), [])
      match phase2 with
      | (.error e, mcalls) => (.error e, ⟨acalls, mcalls, []⟩)
      | (.ok (processing_pair, debug_data), mcalls) =>
        -- Third Phase: Instance Evaluation
        let processing_pair :=
          match processing_pair with
          | .matched mp => _handle_zero_instances_cases (.matched mp)
          | pp => pp
        let step3 : ProcessingPair × List MatchedInstancePair :=
          match processing_pair with
          | .matched mp => (ProcessingPair.result (evaluate_matched_instance mp iou_threshold), [mp])
          | pp => (pp, [])
        match step3 with
        | (processing_pair, ecalls) =>
          match processing_pair with
          | .result r => (.ok (r, debug_data), ⟨acalls, mcalls, ecalls⟩)
          | _ => (.error .pipelineExhausted, ⟨acalls, mcalls, ecalls⟩)

/-- A concrete approximator used to instantiate universally quantified
statements: it reads the semantic masks as instance masks unchanged. -/
def sample_approximator (sp : SemanticPair) : UnmatchedInstancePair :=
  ⟨sp.ref_mask, sp.pred_mask⟩

/-- A concrete matcher used to instantiate universally quantified statements:
it keeps the masks and accepts no pair, leaving every id unmatched. -/
def sample_matcher (up : UnmatchedInstancePair) : MatchedInstancePair :=
  ⟨up.ref_mask, up.pred_mask, [], [], []⟩

/-- Embedding of the `Panoptic_Evaluator` class: configuration captured at
construction time. -/
structure Panoptic_Evaluator where
  expected_input : StageTag
  instance_approximator : Option (SemanticPair → UnmatchedInstancePair)
  instance_matcher : Option (UnmatchedInstancePair → MatchedInstancePair)
  iou_threshold : ℚ

/-- Embedding of `Panoptic_Evaluator.evaluate` (lines 26-34): the `assert`
comparing the runtime type with the configured expected input runs first;
only then is `panoptic_evaluate` called. -/
def Panoptic_Evaluator.evaluate (self : Panoptic_Evaluator)
    (processing_pair : ProcessingPair) :
    Except EvalError (PanopticaResult × List (String × ProcessingPair)) :=
  if processing_pair.typeTag = self.expected_input then
    panoptic_evaluate processing_pair self.instance_approximator self.instance_matcher
      self.iou_threshold
  else
    .error .typeMismatch

/-! ## Characterization lemmas -/

/-- With both instance counts positive, the zero-instance handler passes the
pair through unchanged. -/
theorem handle_zero_of_pos (pp : InstancedPair)
    (h1 : 0 < pp.n_reference_instance) (h2 : 0 < pp.n_prediction_instance) :
    _handle_zero_instances_cases pp = pp.toProcessingPair := by
  have e1 : pp.n_reference_instance ≠ 0 := by omega
  have e2 : pp.n_prediction_instance ≠ 0 := by omega
  simp [_handle_zero_instances_cases, e1, e2]

/-- With either instance count zero, the handler short-circuits to the
all-zero result (the first branch of the source, whose condition is an
`or`). -/
theorem handle_zero_of_zero (pp : InstancedPair)
    (h : pp.n_prediction_instance = 0 ∨ pp.n_reference_instance = 0) :
    _handle_zero_instances_cases pp = .result ⟨0, 0, 0, [], []⟩ := by
  simp only [_handle_zero_instances_cases]
  rw [if_pos h]

/-- A `PanopticaResult` input returns immediately with an empty debug map. -/
theorem panoptic_evaluate_result (r : PanopticaResult)
    (a : Option (SemanticPair → UnmatchedInstancePair))
    (m : Option (UnmatchedInstancePair → MatchedInstancePair)) (t : ℚ) :
    panoptic_evaluate (.result r) a m t = .ok (r, []) := rfl

/-- A `SemanticPair` input with no approximator fails immediately. -/
theorem panoptic_evaluate_semantic_none (sp : SemanticPair)
    (m : Option (UnmatchedInstancePair → MatchedInstancePair)) (t : ℚ) :
    panoptic_evaluate (.semantic sp) none m t = .error .missingApproximator := rfl

/-- Full characterization of the run on a `MatchedInstancePair` input. -/
theorem panoptic_evaluate_matched (mp : MatchedInstancePair)
    (a : Option (SemanticPair → UnmatchedInstancePair))
    (m : Option (UnmatchedInstancePair → MatchedInstancePair)) (t : ℚ) :
    panoptic_evaluate (.matched mp) a m t =
      if mp.n_prediction_instance = 0 ∨ mp.n_reference_instance = 0 then
        .ok (⟨0, 0, 0, [], []⟩, [])
      else
        .ok (evaluate_matched_instance mp t, []) := by
  by_cases h : mp.n_prediction_instance = 0 ∨ mp.n_reference_instance = 0
  · have hz := handle_zero_of_zero (.matched mp) h
    rw [if_pos h]
    simp [panoptic_evaluate, hz]
  · have h1 : 0 < mp.n_reference_instance := by
      rcases Nat.eq_zero_or_pos mp.n_reference_instance with h0 | h0
      · exact absurd (Or.inr h0) h
      · exact h0
    have h2 : 0 < mp.n_prediction_instance := by
      rcases Nat.eq_zero_or_pos mp.n_prediction_instance with h0 | h0
      · exact absurd (Or.inl h0) h
      · exact h0
    have hz := handle_zero_of_pos (.matched mp) h1 h2
    rw [if_neg h]
    simp [panoptic_evaluate, hz, InstancedPair.toProcessingPair]

/-- Full characterization of the run on an `UnmatchedInstancePair` input. -/
theorem panoptic_evaluate_unmatched (up : UnmatchedInstancePair)
    (a : Option (SemanticPair → UnmatchedInstancePair))
    (m : Option (UnmatchedInstancePair → MatchedInstancePair)) (t : ℚ) :
    panoptic_evaluate (.unmatched up) a m t =
      if up.n_prediction_instance = 0 ∨ up.n_reference_instance = 0 then
        .ok (⟨0, 0, 0, [], []⟩, [])
      else
        match m with
        | none => .error .missingMatcher
        | some match_instances =>
          let mp := match_instances up
          if mp.n_prediction_instance = 0 ∨ mp.n_reference_instance = 0 then
            .ok (⟨0, 0, 0, [], []⟩, [("MatchedInstanceMap", ProcessingPair.matched mp.copy)])
          else
            .ok (evaluate_matched_instance mp t,
              [("MatchedInstanceMap", ProcessingPair.matched mp.copy)]) := by
  by_cases h : up.n_prediction_instance = 0 ∨ up.n_reference_instance = 0
  · have hz := handle_zero_of_zero (.unmatched up) h
    rw [if_pos h]
    simp [panoptic_evaluate, hz]
  · have h1 : 0 < up.n_reference_instance := by
      rcases Nat.eq_zero_or_pos up.n_reference_instance with h0 | h0
      · exact absurd (Or.inr h0) h
      · exact h0
    have h2 : 0 < up.n_prediction_instance := by
      rcases Nat.eq_zero_or_pos up.n_prediction_instance with h0 | h0
      · exact absurd (Or.inl h0) h
      · exact h0
    have hz := handle_zero_of_pos (.unmatched up) h1 h2
    rw [if_neg h]
    cases m with
    | none => simp [panoptic_evaluate, hz, InstancedPair.toProcessingPair]
    | some g =>
      by_cases hm : (g up).n_prediction_instance = 0 ∨ (g up).n_reference_instance = 0
      · have hzm := handle_zero_of_zero (.matched (g up)) hm
        simp only [panoptic_evaluate, hz, InstancedPair.toProcessingPair]
        simp [hzm, hm]
      · have hm1 : 0 < (g up).n_reference_instance := by
          rcases Nat.eq_zero_or_pos (g up).n_reference_instance with h0 | h0
          · exact absurd (Or.inr h0) hm
          · exact h0
        have hm2 : 0 < (g up).n_prediction_instance := by
          rcases Nat.eq_zero_or_pos (g up).n_prediction_instance with h0 | h0
          · exact absurd (Or.inl h0) hm
          · exact h0
        have hzm := handle_zero_of_pos (.matched (g up)) hm1 hm2
        simp only [panoptic_evaluate, hz, InstancedPair.toProcessingPair]
        simp [hzm, hm, InstancedPair.toProcessingPair]

/-- With an approximator present, a `SemanticPair` input runs like the
approximated `UnmatchedInstancePair` input, with the `UnmatchedInstanceMap`
debug entry prepended to the debug map. -/
theorem panoptic_evaluate_semantic_some (sp : SemanticPair)
    (f : SemanticPair → UnmatchedInstancePair)
    (m : Option (UnmatchedInstancePair → MatchedInstancePair)) (t : ℚ) :
    panoptic_evaluate (.semantic sp) (some f) m t =
      (panoptic_evaluate (.unmatched (f sp)) none m t).map
        (fun x => (x.1, ("UnmatchedInstanceMap", ProcessingPair.unmatched (f sp).copy) :: x.2)) := by
  rw [panoptic_evaluate_unmatched]
  by_cases h : (f sp).n_prediction_instance = 0 ∨ (f sp).n_reference_instance = 0
  · have hz := handle_zero_of_zero (.unmatched (f sp)) h
    rw [if_pos h]
    simp [panoptic_evaluate, hz, Except.map]
  · have h1 : 0 < (f sp).n_reference_instance := by
      rcases Nat.eq_zero_or_pos (f sp).n_reference_instance with h0 | h0
      · exact absurd (Or.inr h0) h
      · exact h0
    have h2 : 0 < (f sp).n_prediction_instance := by
      rcases Nat.eq_zero_or_pos (f sp).n_prediction_instance with h0 | h0
      · exact absurd (Or.inl h0) h
      · exact h0
    have hz := handle_zero_of_pos (.unmatched (f sp)) h1 h2
    rw [if_neg h]
    cases m with
    | none => simp [panoptic_evaluate, hz, InstancedPair.toProcessingPair, Except.map]
    | some g =>
      by_cases hm : (g (f sp)).n_prediction_instance = 0 ∨ (g (f sp)).n_reference_instance = 0
      · have hzm := handle_zero_of_zero (.matched (g (f sp))) hm
        simp only [panoptic_evaluate, hz, InstancedPair.toProcessingPair]
        simp [hzm, hm, Except.map]
      · have hm1 : 0 < (g (f sp)).n_reference_instance := by
          rcases Nat.eq_zero_or_pos (g (f sp)).n_reference_instance with h0 | h0
          · exact absurd (Or.inr h0) hm
          · exact h0
        have hm2 : 0 < (g (f sp)).n_prediction_instance := by
          rcases Nat.eq_zero_or_pos (g (f sp)).n_prediction_instance with h0 | h0
          · exact absurd (Or.inl h0) hm
          · exact h0
        have hzm := handle_zero_of_pos (.matched (g (f sp))) hm1 hm2
        simp only [panoptic_evaluate, hz, InstancedPair.toProcessingPair]
        simp [hzm, hm, InstancedPair.toProcessingPair, Except.map]

/-- The instrumented run on a `PanopticaResult` input records no calls. -/
theorem panoptic_evaluate_traced_result (r : PanopticaResult)
    (a : Option (SemanticPair → UnmatchedInstancePair))
    (m : Option (UnmatchedInstancePair → MatchedInstancePair)) (t : ℚ) :
    panoptic_evaluate_traced (.result r) a m t = (.ok (r, []), ⟨[], [], []⟩) := rfl

/-- The instrumented run on a `SemanticPair` with no approximator records no
calls. -/
theorem panoptic_evaluate_traced_semantic_none (sp : SemanticPair)
    (m : Option (UnmatchedInstancePair → MatchedInstancePair)) (t : ℚ) :
    panoptic_evaluate_traced (.semantic sp) none m t =
      (.error .missingApproximator, ⟨[], [], []⟩) := rfl

/-- Full characterization of the instrumented run on a `MatchedInstancePair`
input. -/
theorem panoptic_evaluate_traced_matched (mp : MatchedInstancePair)
    (a : Option (SemanticPair → UnmatchedInstancePair))
    (m : Option (UnmatchedInstancePair → MatchedInstancePair)) (t : ℚ) :
    panoptic_evaluate_traced (.matched mp) a m t =
      if mp.n_prediction_instance = 0 ∨ mp.n_reference_instance = 0 then
        (.ok (⟨0, 0, 0, [], []⟩, []), ⟨[], [], []⟩)
      else
        (.ok (evaluate_matched_instance mp t, []), ⟨[], [], [mp]⟩) := by
  by_cases h : mp.n_prediction_instance = 0 ∨ mp.n_reference_instance = 0
  · have hz := handle_zero_of_zero (.matched mp) h
    rw [if_pos h]
    simp [panoptic_evaluate_traced, hz]
  · have h1 : 0 < mp.n_reference_instance := by
      rcases Nat.eq_zero_or_pos mp.n_reference_instance with h0 | h0
      · exact absurd (Or.inr h0) h
      · exact h0
    have h2 : 0 < mp.n_prediction_instance := by
      rcases Nat.eq_zero_or_pos mp.n_prediction_instance with h0 | h0
      · exact absurd (Or.inl h0) h
      · exact h0
    have hz := handle_zero_of_pos (.matched mp) h1 h2
    rw [if_neg h]
    simp [panoptic_evaluate_traced, hz, InstancedPair.toProcessingPair]

/-- Full characterization of the instrumented run on an
`UnmatchedInstancePair` input. -/
theorem panoptic_evaluate_traced_unmatched (up : UnmatchedInstancePair)
    (a : Option (SemanticPair → UnmatchedInstancePair))
    (m : Option (UnmatchedInstancePair → MatchedInstancePair)) (t : ℚ) :
    panoptic_evaluate_traced (.unmatched up) a m t =
      if up.n_prediction_instance = 0 ∨ up.n_reference_instance = 0 then
        (.ok (⟨0, 0, 0, [], []⟩, []), ⟨[], [], []⟩)
      else
        match m with
        | none => (.error .missingMatcher, ⟨[], [], []⟩)
        | some match_instances =>
          let mp := match_instances up
          if mp.n_prediction_instance = 0 ∨ mp.n_reference_instance = 0 then
            (.ok (⟨0, 0, 0, [], []⟩, [("MatchedInstanceMap", ProcessingPair.matched mp.copy)]),
              ⟨[], [up], []⟩)
          else
            (.ok (evaluate_matched_instance mp t,
                [("MatchedInstanceMap", ProcessingPair.matched mp.copy)]),
              ⟨[], [up], [mp]⟩) := by
  by_cases h : up.n_prediction_instance = 0 ∨ up.n_reference_instance = 0
  · have hz := handle_zero_of_zero (.unmatched up) h
    rw [if_pos h]
    simp [panoptic_evaluate_traced, hz]
  · have h1 : 0 < up.n_reference_instance := by
      rcases Nat.eq_zero_or_pos up.n_reference_instance with h0 | h0
      · exact absurd (Or.inr h0) h
      · exact h0
    have h2 : 0 < up.n_prediction_instance := by
      rcases Nat.eq_zero_or_pos up.n_prediction_instance with h0 | h0
      · exact absurd (Or.inl h0) h
      · exact h0
    have hz := handle_zero_of_pos (.unmatched up) h1 h2
    rw [if_neg h]
    cases m with
    | none => simp [panoptic_evaluate_traced, hz, InstancedPair.toProcessingPair]
    | some g =>
      by_cases hm : (g up).n_prediction_instance = 0 ∨ (g up).n_reference_instance = 0
      · have hzm := handle_zero_of_zero (.matched (g up)) hm
        simp only [panoptic_evaluate_traced, hz, InstancedPair.toProcessingPair]
        simp [hzm, hm]
      · have hm1 : 0 < (g up).n_reference_instance := by
          rcases Nat.eq_zero_or_pos (g up).n_reference_instance with h0 | h0
          · exact absurd (Or.inr h0) hm
          · exact h0
        have hm2 : 0 < (g up).n_prediction_instance := by
          rcases Nat.eq_zero_or_pos (g up).n_prediction_instance with h0 | h0
          · exact absurd (Or.inl h0) hm
          · exact h0
        have hzm := handle_zero_of_pos (.matched (g up)) hm1 hm2
        simp only [panoptic_evaluate_traced, hz, InstancedPair.toProcessingPair]
        simp [hzm, hm, InstancedPair.toProcessingPair]

/-- The instrumented run on a `SemanticPair` with an approximator records the
approximation call and continues like the approximated unmatched input. -/
theorem panoptic_evaluate_traced_semantic_some (sp : SemanticPair)
    (f : SemanticPair → UnmatchedInstancePair)
    (m : Option (UnmatchedInstancePair → MatchedInstancePair)) (t : ℚ) :
    panoptic_evaluate_traced (.semantic sp) (some f) m t =
      ((panoptic_evaluate_traced (.unmatched (f sp)) none m t).1.map
          (fun x => (x.1, ("UnmatchedInstanceMap", ProcessingPair.unmatched (f sp).copy) :: x.2)),
        ⟨[sp], (panoptic_evaluate_traced (.unmatched (f sp)) none m t).2.match_calls,
          (panoptic_evaluate_traced (.unmatched (f sp)) none m t).2.evaluate_calls⟩) := by
  rw [panoptic_evaluate_traced_unmatched]
  by_cases h : (f sp).n_prediction_instance = 0 ∨ (f sp).n_reference_instance = 0
  · have hz := handle_zero_of_zero (.unmatched (f sp)) h
    rw [if_pos h]
    simp [panoptic_evaluate_traced, hz, Except.map]
  · have h1 : 0 < (f sp).n_reference_instance := by
      rcases Nat.eq_zero_or_pos (f sp).n_reference_instance with h0 | h0
      · exact absurd (Or.inr h0) h
      · exact h0
    have h2 : 0 < (f sp).n_prediction_instance := by
      rcases Nat.eq_zero_or_pos (f sp).n_prediction_instance with h0 | h0
      · exact absurd (Or.inl h0) h
      · exact h0
    have hz := handle_zero_of_pos (.unmatched (f sp)) h1 h2
    rw [if_neg h]
    cases m with
    | none => simp [panoptic_evaluate_traced, hz, InstancedPair.toProcessingPair, Except.map]
    | some g =>
      by_cases hm : (g (f sp)).n_prediction_instance = 0 ∨ (g (f sp)).n_reference_instance = 0
      · have hzm := handle_zero_of_zero (.matched (g (f sp))) hm
        simp only [panoptic_evaluate_traced, hz, InstancedPair.toProcessingPair]
        simp [hzm, hm, Except.map]
      · have hm1 : 0 < (g (f sp)).n_reference_instance := by
          rcases Nat.eq_zero_or_pos (g (f sp)).n_reference_instance with h0 | h0
          · exact absurd (Or.inr h0) hm
          · exact h0
        have hm2 : 0 < (g (f sp)).n_prediction_instance := by
          rcases Nat.eq_zero_or_pos (g (f sp)).n_prediction_instance with h0 | h0
          · exact absurd (Or.inl h0) hm
          · exact h0
        have hzm := handle_zero_of_pos (.matched (g (f sp))) hm1 hm2
        simp only [panoptic_evaluate_traced, hz, InstancedPair.toProcessingPair]
        simp [hzm, hm, InstancedPair.toProcessingPair, Except.map]

/-! ## Claims -/

/-- C1: the zero-instance handler, evaluated at a pair with an empty
reference side and three prediction instances and at a pair with two
reference instances and an empty prediction side.  The source's first branch
tests `n_prediction_instance == 0 or n_reference_instance == 0` (under a
comment saying "Both references and predictions are empty"), so both inputs
collapse to the all-zero result instead of preserving the non-empty side's
count as the claim (and the source's own unreachable later branches) state. -/
theorem claim_C1_single_side_zero_eval :
    (UnmatchedInstancePair.n_reference_instance ⟨[0, 0, 0], [1, 2, 3]⟩ = 0 ∧
      UnmatchedInstancePair.n_prediction_instance ⟨[0, 0, 0], [1, 2, 3]⟩ = 3 ∧
      _handle_zero_instances_cases (.unmatched ⟨[0, 0, 0], [1, 2, 3]⟩) =
        .result ⟨0, 0, 0, [], []⟩) ∧
    (MatchedInstancePair.n_reference_instance ⟨[1, 2], [0, 0], [], [1, 2], []⟩ = 2 ∧
      MatchedInstancePair.n_prediction_instance ⟨[1, 2], [0, 0], [], [1, 2], []⟩ = 0 ∧
      _handle_zero_instances_cases (.matched ⟨[1, 2], [0, 0], [], [1, 2], []⟩) =
        .result ⟨0, 0, 0, [], []⟩) := by decide

/-- C2 counterexample: an `UnmatchedInstancePair` whose reference side is
empty, evaluated with no matcher configured, does not fail with a
MissingCollaborator condition — the zero-instance handler runs before the
matcher assert and short-circuits to a result. -/
theorem claim_C2_counterexample :
    panoptic_evaluate (.unmatched ⟨[0, 0, 0], [1, 2, 3]⟩) none none (1 / 2) =
      .ok (⟨0, 0, 0, [], []⟩, []) := by rfl

/-- C2 (amended): a `SemanticPair` with no approximator always fails with the
missing-approximator condition, for every matcher and threshold; an
`UnmatchedInstancePair` with no matcher fails with the missing-matcher
condition whenever both of its instance counts are positive (zero-count
unmatched pairs are short-circuited by the zero-instance handler before the
matcher assert is reached). -/
theorem claim_C2_missing_collaborator (sp : SemanticPair)
    (up : UnmatchedInstancePair)
    (a : Option (SemanticPair → UnmatchedInstancePair))
    (m : Option (UnmatchedInstancePair → MatchedInstancePair)) (t : ℚ)
    (h1 : 0 < up.n_reference_instance) (h2 : 0 < up.n_prediction_instance) :
    panoptic_evaluate (.semantic sp) none m t = .error .missingApproximator ∧
    panoptic_evaluate (.unmatched up) a none t = .error .missingMatcher := by
  constructor
  · rfl
  · rw [panoptic_evaluate_unmatched]
    have h : ¬(up.n_prediction_instance = 0 ∨ up.n_reference_instance = 0) := by omega
    rw [if_neg h]

/-- C2 witness: the amended statement at concrete inputs. -/
theorem claim_C2_missing_collaborator_witness :
    panoptic_evaluate (.semantic ⟨[1], [1]⟩) none none (1 / 2) = .error .missingApproximator ∧
    panoptic_evaluate (.unmatched ⟨[1], [1]⟩) none none (1 / 2) = .error .missingMatcher :=
  claim_C2_missing_collaborator ⟨[1], [1]⟩ ⟨[1], [1]⟩ none none (1 / 2)
    (by decide) (by decide)

/-- C3: a `PanopticaResult` is a fixed point of the orchestrator — for every
result and every configuration it is returned unchanged, together with an
empty debug map. -/
theorem claim_C3_result_fixed_point (r : PanopticaResult)
    (a : Option (SemanticPair → UnmatchedInstancePair))
    (m : Option (UnmatchedInstancePair → MatchedInstancePair)) (t : ℚ) :
    panoptic_evaluate (.result r) a m t = .ok (r, []) :=
  panoptic_evaluate_result r a m t

/-- C4: with both instance counts positive, the zero-instance handler returns
the very same pair unmodified. -/
theorem claim_C4_positive_pass_through (pp : InstancedPair)
    (h1 : 0 < pp.n_reference_instance) (h2 : 0 < pp.n_prediction_instance) :
    _handle_zero_instances_cases pp = pp.toProcessingPair :=
  handle_zero_of_pos pp h1 h2

/-- C4 witness: pass-through at a concrete one-instance pair. -/
theorem claim_C4_positive_pass_through_witness :
    _handle_zero_instances_cases (.unmatched ⟨[1], [1]⟩) =
      ProcessingPair.unmatched ⟨[1], [1]⟩ :=
  claim_C4_positive_pass_through (.unmatched ⟨[1], [1]⟩) (by decide) (by decide)

/-- C5: with both instance counts zero, the zero-instance handler returns the
perfect-match degenerate result with zero counts and empty metric lists. -/
theorem claim_C5_both_zero_perfect_match (pp : InstancedPair)
    (h1 : pp.n_reference_instance = 0) (h2 : pp.n_prediction_instance = 0) :
    _handle_zero_instances_cases pp = .result ⟨0, 0, 0, [], []⟩ :=
  handle_zero_of_zero pp (Or.inl h2)

/-- C5 witness: the degenerate result at a concrete all-background pair. -/
theorem claim_C5_both_zero_perfect_match_witness :
    _handle_zero_instances_cases (.unmatched ⟨[0], [0]⟩) =
      .result ⟨0, 0, 0, [], []⟩ :=
  claim_C5_both_zero_perfect_match (.unmatched ⟨[0], [0]⟩) (by decide) (by decide)

/-- C10: noninterference of the configuration on short-circuited paths — a
`PanopticaResult` input and a zero-count `UnmatchedInstancePair` input (with
any non-`none` matcher) produce the identical result and debug map under any
two choices of threshold, approximator and matcher. -/
theorem claim_C10_config_noninterference :
    (∀ (r : PanopticaResult) a1 m1 (t1 : ℚ) a2 m2 (t2 : ℚ),
        panoptic_evaluate (.result r) a1 m1 t1 = panoptic_evaluate (.result r) a2 m2 t2) ∧
    (∀ (up : UnmatchedInstancePair),
        up.n_reference_instance = 0 ∨ up.n_prediction_instance = 0 →
        ∀ a1 g1 (t1 : ℚ) a2 g2 (t2 : ℚ),
          panoptic_evaluate (.unmatched up) a1 (some g1) t1 =
            panoptic_evaluate (.unmatched up) a2 (some g2) t2) := by
  constructor
  · intro r a1 m1 t1 a2 m2 t2
    rw [panoptic_evaluate_result, panoptic_evaluate_result]
  · intro up h a1 g1 t1 a2 g2 t2
    have hz : up.n_prediction_instance = 0 ∨ up.n_reference_instance = 0 := h.symm
    rw [panoptic_evaluate_unmatched, panoptic_evaluate_unmatched, if_pos hz, if_pos hz]

/-- C10 witness: noninterference at a concrete result and a concrete
zero-reference unmatched pair, under two different configurations. -/
theorem claim_C10_config_noninterference_witness :
    panoptic_evaluate (.result ⟨0, 0, 0, [], []⟩) none none 0 =
      panoptic_evaluate (.result ⟨0, 0, 0, [], []⟩) (some sample_approximator)
        (some sample_matcher) 1 ∧
    panoptic_evaluate (.unmatched ⟨[0], [1]⟩) none (some sample_matcher) 0 =
      panoptic_evaluate (.unmatched ⟨[0], [1]⟩) (some sample_approximator)
        (some sample_matcher) 1 :=
  ⟨claim_C10_config_noninterference.1 ⟨0, 0, 0, [], []⟩ none none 0
      (some sample_approximator) (some sample_matcher) 1,
    claim_C10_config_noninterference.2 ⟨[0], [1]⟩ (Or.inl (by decide)) none
      sample_matcher 0 (some sample_approximator) sample_matcher 1⟩

/-- With a matcher present, a run on an `UnmatchedInstancePair` always
produces a result. -/
theorem unmatched_run_ok (up : UnmatchedInstancePair)
    (a : Option (SemanticPair → UnmatchedInstancePair))
    (g : UnmatchedInstancePair → MatchedInstancePair) (t : ℚ) :
    ∃ out, panoptic_evaluate (.unmatched up) a (some g) t = .ok out := by
  rw [panoptic_evaluate_unmatched]
  by_cases h : up.n_prediction_instance = 0 ∨ up.n_reference_instance = 0
  · rw [if_pos h]
    exact ⟨_, rfl⟩
  · rw [if_neg h]
    by_cases hm : (g up).n_prediction_instance = 0 ∨ (g up).n_reference_instance = 0
    · simp only [hm, if_true]
      exact ⟨_, rfl⟩
    · simp only [hm, if_false]
      exact ⟨_, rfl⟩

/-- A run on an `UnmatchedInstancePair` never reports a type mismatch. -/
theorem unmatched_run_ne_typeMismatch (up : UnmatchedInstancePair)
    (a : Option (SemanticPair → UnmatchedInstancePair))
    (m : Option (UnmatchedInstancePair → MatchedInstancePair)) (t : ℚ) :
    panoptic_evaluate (.unmatched up) a m t ≠ .error .typeMismatch := by
  rw [panoptic_evaluate_unmatched]
  by_cases h : up.n_prediction_instance = 0 ∨ up.n_reference_instance = 0
  · simp [h]
  · rw [if_neg h]
    cases m with
    | none => simp
    | some g =>
      by_cases hm : (g up).n_prediction_instance = 0 ∨ (g up).n_reference_instance = 0
      · simp [hm]
      · simp [hm]

/-- No run of `panoptic_evaluate` ever reports a type mismatch: that failure
belongs to `Panoptic_Evaluator.evaluate` alone. -/
theorem panoptic_evaluate_ne_typeMismatch (pp : ProcessingPair)
    (a : Option (SemanticPair → UnmatchedInstancePair))
    (m : Option (UnmatchedInstancePair → MatchedInstancePair)) (t : ℚ) :
    panoptic_evaluate pp a m t ≠ .error .typeMismatch := by
  cases pp with
  | result r => rw [panoptic_evaluate_result]; simp
  | unmatched up => exact unmatched_run_ne_typeMismatch up a m t
  | matched mp =>
    rw [panoptic_evaluate_matched]
    by_cases h : mp.n_prediction_instance = 0 ∨ mp.n_reference_instance = 0
    · simp [h]
    · simp [h]
  | semantic sp =>
    cases a with
    | none => rw [panoptic_evaluate_semantic_none]; simp
    | some f =>
      rw [panoptic_evaluate_semantic_some]
      intro hcontra
      cases hcase : panoptic_evaluate (.unmatched (f sp)) none m t with
      | ok v => rw [hcase] at hcontra; simp [Except.map] at hcontra
      | error err =>
        rw [hcase] at hcontra
        simp only [Except.map, Except.error.injEq] at hcontra
        exact unmatched_run_ne_typeMismatch (f sp) none m t (by rw [hcase, hcontra])

/-- C7: the pipeline-exhausted branch is unreachable — whenever the
collaborators required for the input's stage are present (approximator and
matcher for a semantic pair, matcher for an unmatched pair, none otherwise),
`panoptic_evaluate` returns a result; in particular it never returns the
`pipelineExhausted` error. -/
theorem claim_C7_pipeline_never_exhausted (pp : ProcessingPair)
    (a : Option (SemanticPair → UnmatchedInstancePair))
    (m : Option (UnmatchedInstancePair → MatchedInstancePair)) (t : ℚ)
    (h : match pp with
         | .semantic _ => a.isSome = true ∧ m.isSome = true
         | .unmatched _ => m.isSome = true
         | _ => True) :
    ∃ out, panoptic_evaluate pp a m t = .ok out := by
  cases pp with
  | result r => exact ⟨(r, []), panoptic_evaluate_result r a m t⟩
  | matched mp =>
    rw [panoptic_evaluate_matched]
    by_cases hz : mp.n_prediction_instance = 0 ∨ mp.n_reference_instance = 0
    · rw [if_pos hz]; exact ⟨_, rfl⟩
    · rw [if_neg hz]; exact ⟨_, rfl⟩
  | unmatched up =>
    obtain ⟨g, hg⟩ := Option.isSome_iff_exists.mp h
    rw [hg]
    exact unmatched_run_ok up a g t
  | semantic sp =>
    obtain ⟨⟨f, hf⟩, g, hg⟩ :=
      And.intro (Option.isSome_iff_exists.mp h.1) (Option.isSome_iff_exists.mp h.2)
    rw [hf, hg]
    obtain ⟨out, hout⟩ := unmatched_run_ok (f sp) none g t
    rw [panoptic_evaluate_semantic_some, hout]
    exact ⟨_, rfl⟩

/-- C7 witness: a full semantic-to-result run with both collaborators
present. -/
theorem claim_C7_pipeline_never_exhausted_witness :
    ∃ out, panoptic_evaluate (.semantic ⟨[1], [1]⟩) (some sample_approximator)
      (some sample_matcher) (1 / 2) = .ok out :=
  claim_C7_pipeline_never_exhausted (.semantic ⟨[1], [1]⟩) (some sample_approximator)
    (some sample_matcher) (1 / 2) ⟨rfl, rfl⟩

/-- C8: `Panoptic_Evaluator.evaluate` fails with the type-mismatch condition
exactly when the input's runtime type differs from the configured expected
input; with the expected runtime type no type mismatch is ever reported silently
by the remaining pipeline either. -/
theorem claim_C8_type_mismatch (e : Panoptic_Evaluator) (pp : ProcessingPair) :
    (pp.typeTag ≠ e.expected_input → e.evaluate pp = .error .typeMismatch) ∧
    (pp.typeTag = e.expected_input → e.evaluate pp ≠ .error .typeMismatch) := by
  constructor
  · intro hne
    unfold Panoptic_Evaluator.evaluate
    rw [if_neg hne]
  · intro heq
    unfold Panoptic_Evaluator.evaluate
    rw [if_pos heq]
    exact panoptic_evaluate_ne_typeMismatch pp e.instance_approximator e.instance_matcher
      e.iou_threshold

/-- C8 witness: a result fed to an evaluator expecting an unmatched pair is
rejected with a type mismatch; an unmatched pair fed to the same evaluator is
not. -/
theorem claim_C8_type_mismatch_witness :
    Panoptic_Evaluator.evaluate ⟨.unmatchedInstancePair, none, none, 1 / 2⟩
        (.result ⟨0, 0, 0, [], []⟩) = .error .typeMismatch ∧
    Panoptic_Evaluator.evaluate ⟨.unmatchedInstancePair, none, none, 1 / 2⟩
        (.unmatched ⟨[1], [1]⟩) ≠ .error .typeMismatch :=
  ⟨(claim_C8_type_mismatch ⟨.unmatchedInstancePair, none, none, 1 / 2⟩
      (.result ⟨0, 0, 0, [], []⟩)).1 (by decide),
    (claim_C8_type_mismatch ⟨.unmatchedInstancePair, none, none, 1 / 2⟩
      (.unmatched ⟨[1], [1]⟩)).2 (by decide)⟩

/-- The instrumented run projects to the plain run on unmatched inputs. -/
theorem traced_fst_eq_unmatched (up : UnmatchedInstancePair)
    (a : Option (SemanticPair → UnmatchedInstancePair))
    (m : Option (UnmatchedInstancePair → MatchedInstancePair)) (t : ℚ) :
    (panoptic_evaluate_traced (.unmatched up) a m t).1 =
      panoptic_evaluate (.unmatched up) a m t := by
  rw [panoptic_evaluate_traced_unmatched, panoptic_evaluate_unmatched]
  by_cases h : up.n_prediction_instance = 0 ∨ up.n_reference_instance = 0
  · simp [h]
  · rw [if_neg h, if_neg h]
    cases m with
    | none => rfl
    | some g =>
      by_cases hm : (g up).n_prediction_instance = 0 ∨ (g up).n_reference_instance = 0
      · simp [hm]
      · simp [hm]

/-- The instrumented run projects to the plain run on every input. -/
theorem traced_fst_eq (pp : ProcessingPair)
    (a : Option (SemanticPair → UnmatchedInstancePair))
    (m : Option (UnmatchedInstancePair → MatchedInstancePair)) (t : ℚ) :
    (panoptic_evaluate_traced pp a m t).1 = panoptic_evaluate pp a m t := by
  cases pp with
  | result r => rfl
  | unmatched up => exact traced_fst_eq_unmatched up a m t
  | matched mp =>
    rw [panoptic_evaluate_traced_matched, panoptic_evaluate_matched]
    by_cases h : mp.n_prediction_instance = 0 ∨ mp.n_reference_instance = 0
    · simp [h]
    · simp [h]
  | semantic sp =>
    cases a with
    | none => rfl
    | some f =>
      rw [panoptic_evaluate_traced_semantic_some, panoptic_evaluate_semantic_some]
      simp only [traced_fst_eq_unmatched]

/-- On unmatched inputs, every recorded matcher and evaluator argument has
positive instance counts. -/
theorem traced_calls_pos_unmatched (up : UnmatchedInstancePair)
    (a : Option (SemanticPair → UnmatchedInstancePair))
    (m : Option (UnmatchedInstancePair → MatchedInstancePair)) (t : ℚ) :
    (∀ v ∈ (panoptic_evaluate_traced (.unmatched up) a m t).2.match_calls,
        0 < v.n_reference_instance ∧ 0 < v.n_prediction_instance) ∧
    (∀ v ∈ (panoptic_evaluate_traced (.unmatched up) a m t).2.evaluate_calls,
        0 < v.n_reference_instance ∧ 0 < v.n_prediction_instance) := by
  rw [panoptic_evaluate_traced_unmatched]
  by_cases h : up.n_prediction_instance = 0 ∨ up.n_reference_instance = 0
  · simp [h]
  · rw [if_neg h]
    cases m with
    | none => simp
    | some g =>
      by_cases hm : (g up).n_prediction_instance = 0 ∨ (g up).n_reference_instance = 0
      · simp [hm]
        omega
      · simp [hm]
        constructor
        · omega
        · omega

/-- On matched inputs, no matcher argument is recorded and every recorded
evaluator argument has positive instance counts. -/
theorem traced_calls_pos_matched (mp : MatchedInstancePair)
    (a : Option (SemanticPair → UnmatchedInstancePair))
    (m : Option (UnmatchedInstancePair → MatchedInstancePair)) (t : ℚ) :
    (∀ v ∈ (panoptic_evaluate_traced (.matched mp) a m t).2.match_calls,
        0 < v.n_reference_instance ∧ 0 < v.n_prediction_instance) ∧
    (∀ v ∈ (panoptic_evaluate_traced (.matched mp) a m t).2.evaluate_calls,
        0 < v.n_reference_instance ∧ 0 < v.n_prediction_instance) := by
  rw [panoptic_evaluate_traced_matched]
  by_cases h : mp.n_prediction_instance = 0 ∨ mp.n_reference_instance = 0
  · simp [h]
  · simp [h]
    omega

/-- C6: no zero-instance pair ever reaches the matcher or the evaluator — the
instrumented pipeline (which agrees with `panoptic_evaluate`) only ever hands
`match_instances` or `evaluate_matched_instance` arguments whose reference and
prediction instance counts are both positive. -/
theorem claim_C6_collaborators_never_see_zero (pp : ProcessingPair)
    (a : Option (SemanticPair → UnmatchedInstancePair))
    (m : Option (UnmatchedInstancePair → MatchedInstancePair)) (t : ℚ) :
    (panoptic_evaluate_traced pp a m t).1 = panoptic_evaluate pp a m t ∧
    (∀ v ∈ (panoptic_evaluate_traced pp a m t).2.match_calls,
        0 < v.n_reference_instance ∧ 0 < v.n_prediction_instance) ∧
    (∀ v ∈ (panoptic_evaluate_traced pp a m t).2.evaluate_calls,
        0 < v.n_reference_instance ∧ 0 < v.n_prediction_instance) := by
  refine ⟨traced_fst_eq pp a m t, ?_⟩
  cases pp with
  | result r => simp [panoptic_evaluate_traced_result]
  | unmatched up => exact traced_calls_pos_unmatched up a m t
  | matched mp => exact traced_calls_pos_matched mp a m t
  | semantic sp =>
    cases a with
    | none => simp [panoptic_evaluate_traced_semantic_none]
    | some f =>
      rw [panoptic_evaluate_traced_semantic_some]
      exact traced_calls_pos_unmatched (f sp) none m t

/-- C6 witness: in a full run from a semantic pair, the recorded matcher
argument indeed has positive counts. -/
theorem claim_C6_collaborators_never_see_zero_witness :
    0 < (UnmatchedInstancePair.mk [1] [1]).n_reference_instance ∧
    0 < (UnmatchedInstancePair.mk [1] [1]).n_prediction_instance :=
  (claim_C6_collaborators_never_see_zero (.semantic ⟨[1], [1]⟩) (some sample_approximator)
      (some sample_matcher) (1 / 2)).2.1 ⟨[1], [1]⟩ (by decide)

/-- Debug-map contents of a successful run on an unmatched input: the
`MatchedInstanceMap` entry (a copy of the matcher's output) is present
exactly when the matching phase ran, i.e. when both counts are positive. -/
theorem unmatched_debug_map (up : UnmatchedInstancePair)
    (a : Option (SemanticPair → UnmatchedInstancePair))
    (m : Option (UnmatchedInstancePair → MatchedInstancePair)) (t : ℚ)
    (r : PanopticaResult) (debug : List (String × ProcessingPair))
    (h : panoptic_evaluate (.unmatched up) a m t = .ok (r, debug)) :
    (0 < up.n_reference_instance ∧ 0 < up.n_prediction_instance ∧
      ∃ g, m = some g ∧
        debug = [("MatchedInstanceMap", ProcessingPair.matched (g up).copy)]) ∨
    ((up.n_reference_instance = 0 ∨ up.n_prediction_instance = 0) ∧ debug = []) := by
  rw [panoptic_evaluate_unmatched] at h
  by_cases hz : up.n_prediction_instance = 0 ∨ up.n_reference_instance = 0
  · rw [if_pos hz] at h
    simp only [Except.ok.injEq, Prod.mk.injEq] at h
    exact Or.inr ⟨hz.symm, h.2.symm⟩
  · rw [if_neg hz] at h
    have h1 : 0 < up.n_reference_instance := by omega
    have h2 : 0 < up.n_prediction_instance := by omega
    cases m with
    | none => simp at h
    | some g =>
      refine Or.inl ⟨h1, h2, g, rfl, ?_⟩
      by_cases hm : (g up).n_prediction_instance = 0 ∨ (g up).n_reference_instance = 0
      · simp only [hm, if_true] at h
        simp only [Except.ok.injEq, Prod.mk.injEq] at h
        exact h.2.symm
      · simp only [hm, if_false] at h
        simp only [Except.ok.injEq, Prod.mk.injEq] at h
        exact h.2.symm

/-- C9: on every successful call, the debug map holds exactly the
intermediate non-terminal pairs produced along the path — the
`UnmatchedInstanceMap` entry (a copy of the approximator's output) is present
precisely when the approximation phase ran (semantic input), the
`MatchedInstanceMap` entry (a copy of the matcher's output) precisely when
the matching phase ran (an unmatched pair with positive counts reached it),
there are no other entries, and pairs supplied directly by the caller are
never collected. -/
theorem claim_C9_debug_map_exact (pp : ProcessingPair)
    (a : Option (SemanticPair → UnmatchedInstancePair))
    (m : Option (UnmatchedInstancePair → MatchedInstancePair)) (t : ℚ)
    (r : PanopticaResult) (debug : List (String × ProcessingPair))
    (h : panoptic_evaluate pp a m t = .ok (r, debug)) :
    match pp with
    | .result _ => debug = []
    | .matched _ => debug = []
    | .unmatched up =>
        (0 < up.n_reference_instance ∧ 0 < up.n_prediction_instance ∧
          ∃ g, m = some g ∧
            debug = [("MatchedInstanceMap", ProcessingPair.matched (g up).copy)]) ∨
        ((up.n_reference_instance = 0 ∨ up.n_prediction_instance = 0) ∧ debug = [])
    | .semantic sp =>
        ∃ f, a = some f ∧
          ((0 < (f sp).n_reference_instance ∧ 0 < (f sp).n_prediction_instance ∧
            ∃ g, m = some g ∧
              debug = [("UnmatchedInstanceMap", ProcessingPair.unmatched (f sp).copy),
                ("MatchedInstanceMap", ProcessingPair.matched (g (f sp)).copy)]) ∨
          (((f sp).n_reference_instance = 0 ∨ (f sp).n_prediction_instance = 0) ∧
            debug = [("UnmatchedInstanceMap", ProcessingPair.unmatched (f sp).copy)])) := by
  cases pp with
  | result r0 =>
    rw [panoptic_evaluate_result] at h
    simp only [Except.ok.injEq, Prod.mk.injEq] at h
    exact h.2.symm
  | matched mp =>
    rw [panoptic_evaluate_matched] at h
    by_cases hz : mp.n_prediction_instance = 0 ∨ mp.n_reference_instance = 0
    · rw [if_pos hz] at h
      simp only [Except.ok.injEq, Prod.mk.injEq] at h
      exact h.2.symm
    · rw [if_neg hz] at h
      simp only [Except.ok.injEq, Prod.mk.injEq] at h
      exact h.2.symm
  | unmatched up => exact unmatched_debug_map up a m t r debug h
  | semantic sp =>
    cases a with
    | none => simp [panoptic_evaluate_semantic_none] at h
    | some f =>
      refine ⟨f, rfl, ?_⟩
      rw [panoptic_evaluate_semantic_some] at h
      cases hrun : panoptic_evaluate (.unmatched (f sp)) none m t with
      | error e => rw [hrun] at h; simp [Except.map] at h
      | ok out =>
        rw [hrun] at h
        simp only [Except.map, Except.ok.injEq] at h
        have hdebug : debug =
            ("UnmatchedInstanceMap", ProcessingPair.unmatched (f sp).copy) :: out.2 :=
          (congrArg Prod.snd h).symm
        have hout : panoptic_evaluate (.unmatched (f sp)) none m t = .ok (out.1, out.2) := by
          rw [hrun]
        rcases unmatched_debug_map (f sp) none m t out.1 out.2 hout with
          ⟨hp1, hp2, g, hg, hd⟩ | ⟨hzero, hd⟩
        · exact Or.inl ⟨hp1, hp2, g, hg, by rw [hdebug, hd]⟩
        · exact Or.inr ⟨hzero, by rw [hdebug, hd]⟩

/-- C9 witness: the debug map of a concrete full run from a semantic pair has
exactly the two stage entries. -/
theorem claim_C9_debug_map_exact_witness :
    ∃ f, some sample_approximator = some f ∧
      ((0 < (f ⟨[1], [1]⟩).n_reference_instance ∧ 0 < (f ⟨[1], [1]⟩).n_prediction_instance ∧
        ∃ g, some sample_matcher = some g ∧
          ([("UnmatchedInstanceMap", ProcessingPair.unmatched ⟨[1], [1]⟩),
            ("MatchedInstanceMap", ProcessingPair.matched ⟨[1], [1], [], [], []⟩)] :
            List (String × ProcessingPair)) =
          [("UnmatchedInstanceMap", ProcessingPair.unmatched (f ⟨[1], [1]⟩).copy),
            ("MatchedInstanceMap", ProcessingPair.matched (g (f ⟨[1], [1]⟩)).copy)]) ∨
      (((f ⟨[1], [1]⟩).n_reference_instance = 0 ∨ (f ⟨[1], [1]⟩).n_prediction_instance = 0) ∧
        ([("UnmatchedInstanceMap", ProcessingPair.unmatched ⟨[1], [1]⟩),
          ("MatchedInstanceMap", ProcessingPair.matched ⟨[1], [1], [], [], []⟩)] :
          List (String × ProcessingPair)) =
        [("UnmatchedInstanceMap", ProcessingPair.unmatched (f ⟨[1], [1]⟩).copy)])) :=
  claim_C9_debug_map_exact (.semantic ⟨[1], [1]⟩) (some sample_approximator)
    (some sample_matcher) (1 / 2) ⟨1, 1, 0, [], []⟩
    [("UnmatchedInstanceMap", ProcessingPair.unmatched ⟨[1], [1]⟩),
      ("MatchedInstanceMap", ProcessingPair.matched ⟨[1], [1], [], [], []⟩)]
    (by rfl)

end Panoptica
